import Mathlib

/-!
# AfcDevice (src/devices/afcdevice.cpp)

A shallow embedding of `AfcDevice`: the device session object that mirrors the
iTunes database of an AFC device into a local directory, copies songs onto the
device and writes the database back.

The C++ object and the parts of the world it touches (local files, device
files, emitted signals) are one record, `AfcDevice`; every method is a function
on that record.  Collaborators whose code is outside this file (Qt, libgpod,
`iMobileDeviceConnection`, `AfcFile`, `AfcTransfer`, `GPodDevice::FinishCopy`)
are the fields of `Env`.
Each externally observable statement appends an `Event` to the session's
`trace`, which is what the ordering properties are stated on.
-/

namespace Clementine

/-! ## Data model -/

/-- Song metadata (`Song`); only the fields that identify a song are kept. -/
structure Song where
  url : String
  title : String
deriving DecidableEq

/-- One `Itdb_Track` of libgpod.  `ptr` is the address of the heap object, which
is how the C code identifies the track. -/
structure Itdb_Track where
  ptr : Nat
  song : Song
  transferred : Bool
  filetype_marker : Nat
  ipod_path : Option String
deriving DecidableEq

/-- The `Itdb_iTunesDB` of libgpod: its track list and the sysinfo table of
`db->device`. -/
structure Itdb_iTunesDB where
  tracks : List Itdb_Track
  sysinfo : List (String × String)
deriving DecidableEq

/-- A file system: path and content of each file. -/
abbrev Files := List (String × List Nat)

/-- The `GPodLoader` created by `CopyFinished`, with the settings given to it. -/
structure GPodLoader where
  path : String
  music_path_prefix_ : String
  song_type_stream : Bool
deriving DecidableEq

/-- One entry of the library model: the song built from a track under a
location prefix. -/
structure ModelEntry where
  pfx : String
  track : Itdb_Track
deriving DecidableEq

/-- The externally observable steps of the methods, in program order. -/
inductive Event where
  | AddTrackToITunesDb (ptr : Nat)
  | GetUnusedFilename (dest : String)
  | itdb_track_remove (ptr : Nat)
  | source_open (path : String) (ok : Bool)
  | dest_open (path : String) (ok : Bool)
  | dest_write (path : String) (ok : Bool)
  | set_transferred (ptr : Nat)
  | set_filetype_marker (ptr : Nat) (marker : Nat)
  | set_ipod_path (ptr : Nat) (path : String)
  | itdb_filename_fs2ipod (ptr : Nat) (path : String)
  | AddTrackToModel (ptr : Nat) (pfx : String)
  | QFile_remove (path : String)
  | set_sysinfo (field : String) (value : Option String)
  | itdb_start_sync
  | CopyToDevice (ok : Bool)
  | itdb_stop_sync
  | emit_Error (msg : String)
  | LoadDatabase
deriving DecidableEq

/-- The `AfcDevice` object together with the world it acts on. -/
structure AfcDevice where
  url_host : String
  local_path_ : String
  transfer_ : Bool
  loader_ : Option GPodLoader
  db_ : Option Itdb_iTunesDB
  songs_to_add_ : List ModelEntry
  errors : List String
  load_requests : List GPodLoader
  local_files : Files
  device_files : Files
  trace : List Event
deriving DecidableEq

/-- The collaborators of `AfcDevice` whose code is not part of afcdevice.cpp.
`toAscii` gives the C `char` promoted to `int`.  `GPodDevice_FinishCopy` is the
base-class method `GPodDevice::FinishCopy`: it is given the virtual
`FinaliseDatabase` of the object and the object, and is otherwise unknown. -/
structure Env where
  GetUnusedFilename : Files → Itdb_iTunesDB → Song → String
  itdb_filename_fs2ipod : String → String
  toUpper : List Char → List Char
  toAscii : Char → Int
  dest_open_ok : String → Bool
  dest_write_ok : String → Bool
  QFile_remove_ok : String → Bool
  CopyToDevice : String → Files → Bool × Files
  GPodDevice_FinishCopy : (AfcDevice → Option AfcDevice) → AfcDevice → Option AfcDevice

/-! ## libgpod and base-class helpers -/

/-- The address `itdb_track_new` returns: one not used by any track of the
database. -/
def fresh_ptr (db : Itdb_iTunesDB) : Nat :=
  (db.tracks.map Itdb_Track.ptr).foldr max 0 + 1

/-- Modelled from the spec: `GPodDevice::AddTrackToITunesDb` is a base-class
method outside afcdevice.cpp; it "creates a new Track Record in the Local
Database Handle from metadata" and returns it. -/
def AddTrackToITunesDb (db : Itdb_iTunesDB) (metadata : Song) : Itdb_Track × Itdb_iTunesDB :=
  let track : Itdb_Track :=
    { ptr := fresh_ptr db, song := metadata, transferred := false,
      filetype_marker := 0, ipod_path := none }
  (track, { db with tracks := db.tracks ++ [track] })

/-- The libgpod call `itdb_track_remove`: the track leaves the database. -/
def itdb_track_remove (db : Itdb_iTunesDB) (ptr : Nat) : Itdb_iTunesDB :=
  { db with tracks := db.tracks.filter (fun t => t.ptr != ptr) }

/-- A write through the track pointer: the track at `ptr` becomes `f` of it. -/
def modify_track (db : Itdb_iTunesDB) (ptr : Nat) (f : Itdb_Track → Itdb_Track) : Itdb_iTunesDB :=
  { db with tracks := db.tracks.map (fun t => if t.ptr = ptr then f t else t) }

/-- The libgpod call `itdb_device_set_sysinfo`: a NULL value removes the field. -/
def itdb_device_set_sysinfo (db : Itdb_iTunesDB) (field : String) (value : Option String) :
    Itdb_iTunesDB :=
  let rest := db.sysinfo.filter (fun kv => kv.1 != field)
  match value with
  | none => { db with sysinfo := rest }
  | some v => { db with sysinfo := (field, v) :: rest }

/-- The device-lock token: the "FirewireGuid" entry of the sysinfo table. -/
def FirewireGuid (db : Itdb_iTunesDB) : Option String :=
  db.sysinfo.lookup "FirewireGuid"

/-- Modelled from the spec: `GPodDevice::AddTrackToModel` is a base-class method
outside afcdevice.cpp; it "registers the Track Record into the session's
visible track index under the device-prefixed location". -/
def AddTrackToModel (songs : List ModelEntry) (track : Itdb_Track) (pfx : String) :
    List ModelEntry :=
  songs ++ [{ pfx := pfx, track := track }]

/-! ## The file-type marker (afcdevice.cpp lines 104-113) -/

/-- The Qt call `section(sep, -1, -1)`: the last of the fields separated by `sep`. -/
def section_last (sep : Char) : List Char → List Char
  | [] => []
  | c :: cs => if sep ∈ cs then section_last sep cs else if c = sep then cs else c :: cs

/-- Conversion of an `int` to `guint32`. -/
def toUInt32 (x : Int) : Nat := (x % 4294967296).toNat

/-- One round of the loop: shift the 32-bit marker left by 8, then or in the
character at `i`, or a space when `i` is past the end of the suffix. -/
def marker_step (toAscii : Char → Int) (suffix : List Char) (m : Nat) (i : Nat) : Nat :=
  let m1 := (m <<< 8) % 4294967296
  if h : i < suffix.length then m1 ||| toUInt32 (toAscii suffix[i])
  else m1 ||| toUInt32 32

/-- The loop `for (int i=0 ; i<4 ; ++i)` starting from marker 0. -/
def filetype_marker (toAscii : Char → Int) (suffix : List Char) : Nat :=
  (List.range 4).foldl (marker_step toAscii suffix) 0

/-- Qt 4's `QChar::toAscii` with no codec for C strings installed:
`ucs > 0xff ? 0 : char(ucs)`, where `char` is signed. -/
def QChar_toAscii (c : Char) : Int :=
  if c.toNat > 0xff then 0
  else if c.toNat ≥ 0x80 then (c.toNat : Int) - 256
  else c.toNat

/-- Byte `i` of a 32-bit value, byte 0 the most significant. -/
def byteAt (m : Nat) (i : Nat) : Nat := (m / 256 ^ (3 - i)) % 256

/-- The four bytes of a 32-bit value, most significant first. -/
def markerBytes (m : Nat) : List Nat := (List.range 4).map (byteAt m)

/-- The character code the marker should carry at position `i`: the `i`-th
character of the extension, or a space. -/
def extByte (ext : List Char) (i : Nat) : Nat :=
  if h : i < ext.length then ext[i].toNat else 0x20

/-! ## AfcDevice methods -/

/-- The message of the `Error` signal of `CopyFinished`. -/
def copyFromDeviceError : String :=
  "An error occurred copying the iTunes database from the device"

/-- The message of the `Error` signal of `FinaliseDatabase`. -/
def copyToDeviceError : String :=
  "An error occurred copying the iTunes database onto the device"

/-- The slot `AfcDevice::CopyFinished(bool success)`. -/
def CopyFinished (s : AfcDevice) (success : Bool) : AfcDevice :=
  let s1 := { s with transfer_ := false }
  if !success then
    { s1 with errors := s1.errors ++ [copyFromDeviceError],
              trace := s1.trace ++ [Event.emit_Error copyFromDeviceError] }
  else
    let loader : GPodLoader :=
      { path := s1.local_path_, music_path_prefix_ := "afc://" ++ s1.url_host,
        song_type_stream := true }
    { s1 with loader_ := some loader,
              load_requests := s1.load_requests ++ [loader],
              trace := s1.trace ++ [Event.LoadDatabase] }

/-- The method `AfcDevice::CopyToStorage(source, _, metadata, _, remove_original)`.
The result is `none` when `db_` is null (the `Q_ASSERT`). -/
def CopyToStorage (env : Env) (s : AfcDevice) (source : String) (metadata : Song)
    (remove_original : Bool) : Option (Bool × AfcDevice) :=
  match s.db_ with
  | none => none
  | some db =>
    let (track, db1) := AddTrackToITunesDb db metadata
    let dest := env.GetUnusedFilename s.device_files db1 metadata
    let tr1 := s.trace ++ [Event.AddTrackToITunesDb track.ptr, Event.GetUnusedFilename dest]
    if dest = "" then
      some (false, { s with db_ := some (itdb_track_remove db1 track.ptr),
                            trace := tr1 ++ [Event.itdb_track_remove track.ptr] })
    else
      -- Copy the file; none of the three results is looked at
      let src := s.local_files.lookup source
      let data := src.getD []
      let opened := env.dest_open_ok dest
      let written := opened && env.dest_write_ok dest
      let device_files :=
        if opened then (dest, if written then data else []) :: s.device_files
        else s.device_files
      let tr2 := tr1 ++ [Event.source_open source src.isSome, Event.dest_open dest opened,
                         Event.dest_write dest written]
      -- track->transferred = 1
      let db2 := modify_track db1 track.ptr (fun t => { t with transferred := true })
      let track2 := { track with transferred := true }
      -- the filetype_marker
      let suffix := env.toUpper (section_last '.' dest.toList)
      let marker := filetype_marker env.toAscii suffix
      let db3 := modify_track db2 track.ptr (fun t => { t with filetype_marker := marker })
      let track3 := { track2 with filetype_marker := marker }
      -- the filename: a copy of dest, then converted in place
      let db4 := modify_track db3 track.ptr (fun t => { t with ipod_path := some dest })
      let track4 := { track3 with ipod_path := some dest }
      let db5 := modify_track db4 track.ptr
        (fun t => { t with ipod_path := t.ipod_path.map env.itdb_filename_fs2ipod })
      let track5 := { track4 with ipod_path := track4.ipod_path.map env.itdb_filename_fs2ipod }
      let tr3 := tr2 ++ [Event.set_transferred track.ptr,
                         Event.set_filetype_marker track.ptr marker,
                         Event.set_ipod_path track.ptr dest,
                         Event.itdb_filename_fs2ipod track.ptr (env.itdb_filename_fs2ipod dest)]
      let songs := AddTrackToModel s.songs_to_add_ track5 ("afc://" ++ s.url_host)
      let tr4 := tr3 ++ [Event.AddTrackToModel track.ptr ("afc://" ++ s.url_host)]
      let s4 := { s with db_ := some db5, songs_to_add_ := songs,
                         device_files := device_files, trace := tr4 }
      if remove_original then
        let local_files :=
          if env.QFile_remove_ok source then s.local_files.filter (fun kv => kv.1 != source)
          else s.local_files
        some (true, { s4 with local_files := local_files,
                              trace := tr4 ++ [Event.QFile_remove source] })
      else
        some (true, s4)

/-- The method `AfcDevice::FinaliseDatabase()`.  The result is `none` when `db_`
is null. -/
def FinaliseDatabase (env : Env) (s : AfcDevice) : Option AfcDevice :=
  match s.db_ with
  | none => none
  | some db =>
    let db1 := itdb_device_set_sysinfo db "FirewireGuid" (some s.url_host)
    let (success, device_files) := env.CopyToDevice s.local_path_ s.device_files
    let s1 := { s with db_ := some db1, device_files := device_files,
                       trace := s.trace ++ [Event.set_sysinfo "FirewireGuid" (some s.url_host),
                                            Event.itdb_start_sync, Event.CopyToDevice success,
                                            Event.itdb_stop_sync] }
    if !success then
      some { s1 with errors := s1.errors ++ [copyToDeviceError],
                     trace := s1.trace ++ [Event.emit_Error copyToDeviceError] }
    else
      some s1

/-- The method `AfcDevice::FinishCopy()`: the token is unset, then the call goes
to the base class.  The result is `none` when `db_` is null. -/
def FinishCopy (env : Env) (s : AfcDevice) : Option AfcDevice :=
  match s.db_ with
  | none => none
  | some db =>
    let db1 := itdb_device_set_sysinfo db "FirewireGuid" none
    env.GPodDevice_FinishCopy (FinaliseDatabase env)
      { s with db_ := some db1, trace := s.trace ++ [Event.set_sysinfo "FirewireGuid" none] }

/-- The method `AfcDevice::DeleteFromStorage(metadata)`. -/
def DeleteFromStorage (s : AfcDevice) (_metadata : Song) : Bool × AfcDevice :=
  (false, s)

/-! ## Names used in the statements about `CopyToStorage` -/

/-- The path `GetUnusedFilename` returns inside `CopyToStorage`: it is asked
after the new track was added to the database. -/
def allocated_dest (env : Env) (s : AfcDevice) (db : Itdb_iTunesDB) (metadata : Song) : String :=
  env.GetUnusedFilename s.device_files (AddTrackToITunesDb db metadata).2 metadata

/-- The marker of a destination path: that of its upper-cased last section. -/
def dest_marker (env : Env) (dest : String) : Nat :=
  filetype_marker env.toAscii (env.toUpper (section_last '.' dest.toList))

/-- The events of a `CopyToStorage` call with an allocated path, up to and
including the registration in the model. -/
def copy_events (env : Env) (s : AfcDevice) (source : String) (db : Itdb_iTunesDB)
    (dest : String) : List Event :=
  [Event.AddTrackToITunesDb (fresh_ptr db),
   Event.GetUnusedFilename dest,
   Event.source_open source (s.local_files.lookup source).isSome,
   Event.dest_open dest (env.dest_open_ok dest),
   Event.dest_write dest (env.dest_open_ok dest && env.dest_write_ok dest),
   Event.set_transferred (fresh_ptr db),
   Event.set_filetype_marker (fresh_ptr db) (dest_marker env dest),
   Event.set_ipod_path (fresh_ptr db) dest,
   Event.itdb_filename_fs2ipod (fresh_ptr db) (env.itdb_filename_fs2ipod dest),
   Event.AddTrackToModel (fresh_ptr db) ("afc://" ++ s.url_host)]

/-! ## Concrete sessions used as examples -/

/-- A collaborator set in which every device operation succeeds, the allocated
path is fixed, and the base-class `FinishCopy` runs the finalisation it is
given. -/
def env_ok : Env where
  GetUnusedFilename := fun _ _ _ => "/iTunes_Control/Music/F00/libgpod000001.mp3"
  itdb_filename_fs2ipod := fun p => String.mk (p.toList.map (fun c => if c = '/' then ':' else c))
  toUpper := fun cs => cs.map Char.toUpper
  toAscii := QChar_toAscii
  dest_open_ok := fun _ => true
  dest_write_ok := fun _ => true
  QFile_remove_ok := fun _ => true
  CopyToDevice := fun _ files => (true, files)
  GPodDevice_FinishCopy := fun finalise t => finalise t

/-- As `env_ok`, but no unused path can be allocated. -/
def env_no_path : Env :=
  { env_ok with GetUnusedFilename := fun _ _ _ => "" }

/-- As `env_ok`, but the device file can not be opened and the database can not
be copied onto the device. -/
def env_io_fail : Env :=
  { env_ok with dest_open_ok := fun _ => false, dest_write_ok := fun _ => false,
                CopyToDevice := fun _ files => (false, files) }

/-- A song on the local disk. -/
def song1 : Song := { url := "/home/user/a.mp3", title := "A" }

/-- A database with one transferred track and no lock token. -/
def db0 : Itdb_iTunesDB :=
  { tracks := [{ ptr := 7, song := { url := "/home/user/old.mp3", title := "Old" },
                 transferred := true, filetype_marker := 0x4D503320,
                 ipod_path := some ":iTunes_Control:Music:F01:old.mp3" }],
    sysinfo := [("ModelNumStr", "xA623")] }

/-- A session whose database is loaded. -/
def ready0 : AfcDevice :=
  { url_host := "ipod-1234", local_path_ := "/tmp/afc", transfer_ := false, loader_ := none,
    db_ := some db0, songs_to_add_ := [], errors := [], load_requests := [],
    local_files := [("/home/user/a.mp3", [1, 2, 3])], device_files := [], trace := [] }

/-- The session `ready0` after `song1` was copied onto the device. -/
def copied0 : AfcDevice :=
  { ready0 with
    db_ := some
      { tracks := db0.tracks ++
          [{ ptr := 8, song := song1, transferred := true, filetype_marker := 0x4D503320,
             ipod_path := some ":iTunes_Control:Music:F00:libgpod000001.mp3" }],
        sysinfo := db0.sysinfo },
    songs_to_add_ :=
      [{ pfx := "afc://ipod-1234",
         track := { ptr := 8, song := song1, transferred := true, filetype_marker := 0x4D503320,
                    ipod_path := some ":iTunes_Control:Music:F00:libgpod000001.mp3" } }],
    device_files := [("/iTunes_Control/Music/F00/libgpod000001.mp3", [1, 2, 3])],
    trace :=
      [Event.AddTrackToITunesDb 8,
       Event.GetUnusedFilename "/iTunes_Control/Music/F00/libgpod000001.mp3",
       Event.source_open "/home/user/a.mp3" true,
       Event.dest_open "/iTunes_Control/Music/F00/libgpod000001.mp3" true,
       Event.dest_write "/iTunes_Control/Music/F00/libgpod000001.mp3" true,
       Event.set_transferred 8,
       Event.set_filetype_marker 8 0x4D503320,
       Event.set_ipod_path 8 "/iTunes_Control/Music/F00/libgpod000001.mp3",
       Event.itdb_filename_fs2ipod 8 ":iTunes_Control:Music:F00:libgpod000001.mp3",
       Event.AddTrackToModel 8 "afc://ipod-1234"] }


/-! ## Lemmas on the marker arithmetic -/

theorem or_byte (m b : Nat) (hm : m < 16777216) (hb : b < 256) :
    ((m <<< 8) % 4294967296) ||| b = m * 256 + b := by
  have h1 : m <<< 8 = 2 ^ 8 * m := by simp [Nat.shiftLeft_eq, Nat.mul_comm]
  have h2 : (m <<< 8) % 4294967296 = m <<< 8 := by
    rw [h1]; apply Nat.mod_eq_of_lt; omega
  have hb2 : b < 2 ^ 8 := by simpa using hb
  rw [h2, h1, ← Nat.mul_add_lt_is_or hb2 m]
  omega

theorem toUInt32_small (n : Nat) (h : n < 256) : toUInt32 (n : Int) = n := by
  unfold toUInt32
  omega

theorem mem_take_four (ext : List Char) (i : Nat) (h : i < ext.length) (hi : i < 4) :
    ext[i] ∈ ext.take 4 := by
  rw [List.mem_take_iff_getElem]
  exact ⟨i, by omega, rfl⟩

theorem extByte_lt (ext : List Char)
    (hext : ∀ c ∈ ext.take 4, c.toNat < 128) (i : Nat) (hi : i < 4) :
    extByte ext i < 256 := by
  unfold extByte
  split
  · next h => have := hext _ (mem_take_four ext i h hi); omega
  · omega

theorem marker_step_eq (toAscii : Char → Int) (ext : List Char)
    (hA : ∀ c : Char, c.toNat < 128 → toAscii c = (c.toNat : Int))
    (hext : ∀ c ∈ ext.take 4, c.toNat < 128)
    (m i : Nat) (hm : m < 16777216) (hi : i < 4) :
    marker_step toAscii ext m i = m * 256 + extByte ext i := by
  have hb := extByte_lt ext hext i hi
  unfold marker_step
  unfold extByte at hb ⊢
  by_cases h : i < ext.length
  · simp only [h, dite_true] at hb ⊢
    rw [hA _ (hext _ (mem_take_four ext i h hi)), toUInt32_small _ hb]
    exact or_byte m _ hm hb
  · simp only [h, dite_false] at hb ⊢
    rw [show toUInt32 32 = 32 from by decide]
    exact or_byte m _ hm (by omega)

theorem filetype_marker_pack (toAscii : Char → Int) (ext : List Char)
    (hA : ∀ c : Char, c.toNat < 128 → toAscii c = (c.toNat : Int))
    (hext : ∀ c ∈ ext.take 4, c.toNat < 128) :
    filetype_marker toAscii ext
      = extByte ext 0 * 16777216 + extByte ext 1 * 65536 + extByte ext 2 * 256 + extByte ext 3 := by
  have b0 := extByte_lt ext hext 0 (by omega)
  have b1 := extByte_lt ext hext 1 (by omega)
  have b2 := extByte_lt ext hext 2 (by omega)
  have b3 := extByte_lt ext hext 3 (by omega)
  have hr : List.range 4 = [0, 1, 2, 3] := by decide
  unfold filetype_marker
  rw [hr]
  simp only [List.foldl]
  rw [marker_step_eq toAscii ext hA hext 0 0 (by omega) (by omega)]
  rw [marker_step_eq toAscii ext hA hext _ 1 (by omega) (by omega)]
  rw [marker_step_eq toAscii ext hA hext _ 2 (by omega) (by omega)]
  rw [marker_step_eq toAscii ext hA hext _ 3 (by omega) (by omega)]
  omega

theorem QChar_toAscii_ascii (c : Char) (h : c.toNat < 128) : QChar_toAscii c = (c.toNat : Int) := by
  unfold QChar_toAscii
  split
  · omega
  · split
    · omega
    · rfl

/-- C1 (as amended): for every extension whose characters at positions 0..3 are
ASCII, and every `toAscii` that maps an ASCII character to its code, the marker
is the 32-bit big-endian value whose byte `i` is the `i`-th character of the
extension when `i < length` and a space otherwise; extension "MP3" gives
0x4D503320. -/
theorem filetype_marker_big_endian (toAscii : Char → Int) (ext : List Char)
    (hA : ∀ c : Char, c.toNat < 128 → toAscii c = (c.toNat : Int))
    (hext : ∀ c ∈ ext.take 4, c.toNat < 128) :
    filetype_marker toAscii ext
        = extByte ext 0 * 256 ^ 3 + extByte ext 1 * 256 ^ 2 + extByte ext 2 * 256 + extByte ext 3
      ∧ (∀ i, i < 4 → byteAt (filetype_marker toAscii ext) i = extByte ext i)
      ∧ filetype_marker toAscii ['M', 'P', '3'] = 0x4D503320 := by
  have hp := filetype_marker_pack toAscii ext hA hext
  have b0 := extByte_lt ext hext 0 (by omega)
  have b1 := extByte_lt ext hext 1 (by omega)
  have b2 := extByte_lt ext hext 2 (by omega)
  have b3 := extByte_lt ext hext 3 (by omega)
  refine ⟨by rw [hp]; norm_num, ?_, ?_⟩
  · intro i hi
    rw [hp]
    unfold byteAt
    interval_cases i
    · norm_num; omega
    · norm_num; omega
    · norm_num; omega
    · norm_num; omega
  · rw [filetype_marker_pack toAscii ['M', 'P', '3'] hA (by decide)]
    decide

/-- Witness for C1 at Qt's `toAscii` and the extension "M4A". -/
theorem filetype_marker_big_endian_witness :
    (∀ c : Char, c.toNat < 128 → QChar_toAscii c = (c.toNat : Int))
    ∧ (∀ c ∈ ['M', '4', 'A'].take 4, c.toNat < 128)
    ∧ filetype_marker QChar_toAscii ['M', '4', 'A']
        = extByte ['M', '4', 'A'] 0 * 256 ^ 3 + extByte ['M', '4', 'A'] 1 * 256 ^ 2
          + extByte ['M', '4', 'A'] 2 * 256 + extByte ['M', '4', 'A'] 3
    ∧ (∀ i, i < 4 → byteAt (filetype_marker QChar_toAscii ['M', '4', 'A']) i
        = extByte ['M', '4', 'A'] i)
    ∧ filetype_marker QChar_toAscii ['M', 'P', '3'] = 0x4D503320 :=
  ⟨QChar_toAscii_ascii, by decide,
    filetype_marker_big_endian QChar_toAscii ['M', '4', 'A'] QChar_toAscii_ascii (by decide)⟩

/-- C1 fails as stated: for the one-character extension U+03A9 the most
significant byte of the marker is 0, not that character; and for "MP3"
followed by U+00C9 the marker is 0xFFFFFFC9, whose most significant byte is
not the character M. -/
theorem filetype_marker_non_ascii :
    byteAt (filetype_marker QChar_toAscii [Char.ofNat 0x3A9]) 0
        ≠ extByte [Char.ofNat 0x3A9] 0
      ∧ byteAt (filetype_marker QChar_toAscii [Char.ofNat 0x3A9]) 0 = 0
      ∧ filetype_marker QChar_toAscii ['M', 'P', '3', Char.ofNat 0xC9] = 0xFFFFFFC9
      ∧ byteAt (filetype_marker QChar_toAscii ['M', 'P', '3', Char.ofNat 0xC9]) 0
        ≠ extByte ['M', 'P', '3', Char.ofNat 0xC9] 0 := by
  decide

/-- C8 (as amended): the marker computed for extension "M4A" consists of the
four bytes [0x4D, 0x34, 0x41, 0x20], most significant first, for every
`toAscii` that maps an ASCII character to its code. -/
theorem filetype_marker_M4A (toAscii : Char → Int)
    (hA : ∀ c : Char, c.toNat < 128 → toAscii c = (c.toNat : Int)) :
    markerBytes (filetype_marker toAscii ['M', '4', 'A']) = [0x4D, 0x34, 0x41, 0x20] := by
  rw [filetype_marker_pack toAscii ['M', '4', 'A'] hA (by decide)]
  decide

/-- Witness for C8 at Qt's `toAscii`. -/
theorem filetype_marker_M4A_witness :
    markerBytes (filetype_marker QChar_toAscii ['M', '4', 'A']) = [0x4D, 0x34, 0x41, 0x20] :=
  filetype_marker_M4A QChar_toAscii QChar_toAscii_ascii

/-- C8 fails as stated: the bytes of the marker of "M4A" are not
[0x4D, 0x41, 0x41, 0x20]; the second byte is the digit 4, 0x34. -/
theorem filetype_marker_M4A_not_4D414120 :
    markerBytes (filetype_marker QChar_toAscii ['M', '4', 'A']) ≠ [0x4D, 0x41, 0x41, 0x20]
      ∧ byteAt (filetype_marker QChar_toAscii ['M', '4', 'A']) 1 = 0x34 := by
  decide

/-- C9: for every track and every session, `DeleteFromStorage` returns false and
the session is unchanged: database, visible track index, lock token, device
files and all the rest are as before the call. -/
theorem DeleteFromStorage_false_unchanged (s : AfcDevice) (metadata : Song) :
    (DeleteFromStorage s metadata).1 = false
      ∧ (DeleteFromStorage s metadata).2 = s
      ∧ (DeleteFromStorage s metadata).2.db_ = s.db_
      ∧ (DeleteFromStorage s metadata).2.songs_to_add_ = s.songs_to_add_
      ∧ (DeleteFromStorage s metadata).2.db_.map FirewireGuid = s.db_.map FirewireGuid
      ∧ (DeleteFromStorage s metadata).2.device_files = s.device_files :=
  ⟨rfl, rfl, rfl, rfl, rfl, rfl⟩

/-- C7: when the copy from the device reports failure, `CopyFinished` reports
exactly one error, submits no load request, and leaves the database handle, the
loader and the visible tracks as they were (the handle stays unset); when it
reports success, no error is reported and exactly one load request is
submitted, whose music path prefix is "afc://" followed by the device
identifier. -/
theorem CopyFinished_failure_and_success (s : AfcDevice) :
    ((CopyFinished s false).errors = s.errors ++ [copyFromDeviceError]
      ∧ (CopyFinished s false).load_requests = s.load_requests
      ∧ (CopyFinished s false).loader_ = s.loader_
      ∧ (CopyFinished s false).db_ = s.db_
      ∧ (CopyFinished s false).songs_to_add_ = s.songs_to_add_
      ∧ (CopyFinished s false).trace = s.trace ++ [Event.emit_Error copyFromDeviceError])
    ∧ ((CopyFinished s true).errors = s.errors
      ∧ (CopyFinished s true).load_requests
          = s.load_requests ++ [{ path := s.local_path_,
                                  music_path_prefix_ := "afc://" ++ s.url_host,
                                  song_type_stream := true }]
      ∧ (CopyFinished s true).db_ = s.db_
      ∧ (CopyFinished s true).songs_to_add_ = s.songs_to_add_
      ∧ (CopyFinished s true).trace = s.trace ++ [Event.LoadDatabase]) :=
  ⟨⟨rfl, rfl, rfl, rfl, rfl, rfl⟩, ⟨rfl, rfl, rfl, rfl, rfl⟩⟩

/-! ## Lemmas on the database -/

theorem foldr_max_ge (l : List Nat) (n : Nat) (h : n ∈ l) : n ≤ l.foldr max 0 := by
  induction l with
  | nil => cases h
  | cons a l ih =>
    simp only [List.foldr_cons]
    rcases List.mem_cons.mp h with h1 | h1
    · subst h1; exact Nat.le_max_left _ _
    · exact Nat.le_trans (ih h1) (Nat.le_max_right _ _)

theorem ptr_lt_fresh (db : Itdb_iTunesDB) (t : Itdb_Track) (h : t ∈ db.tracks) :
    t.ptr < fresh_ptr db := by
  unfold fresh_ptr
  exact Nat.lt_succ_of_le (foldr_max_ge _ _ (List.mem_map_of_mem _ h))

theorem filter_ne_append_last (tracks : List Itdb_Track) (t : Itdb_Track)
    (h : ∀ u ∈ tracks, u.ptr ≠ t.ptr) :
    (tracks ++ [t]).filter (fun u => u.ptr != t.ptr) = tracks := by
  rw [List.filter_append]
  have h1 : tracks.filter (fun u => u.ptr != t.ptr) = tracks := by
    apply List.filter_eq_self.mpr
    intro u hu
    simpa using h u hu
  simp [h1]

theorem map_modify_append_last (tracks : List Itdb_Track) (t : Itdb_Track)
    (f : Itdb_Track → Itdb_Track) (h : ∀ u ∈ tracks, u.ptr ≠ t.ptr) :
    (tracks ++ [t]).map (fun u => if u.ptr = t.ptr then f u else u) = tracks ++ [f t] := by
  rw [List.map_append]
  have h1 : tracks.map (fun u => if u.ptr = t.ptr then f u else u) = tracks := by
    conv_rhs => rw [← List.map_id tracks]
    apply List.map_congr_left
    intro u hu
    simp [h u hu]
  simp [h1]

theorem remove_added (db : Itdb_iTunesDB) (metadata : Song) :
    itdb_track_remove (AddTrackToITunesDb db metadata).2 (AddTrackToITunesDb db metadata).1.ptr
      = db := by
  have h := filter_ne_append_last db.tracks
    { ptr := fresh_ptr db, song := metadata, transferred := false, filetype_marker := 0,
      ipod_path := none }
    (fun u hu => Nat.ne_of_lt (ptr_lt_fresh db u hu))
  simp only at h
  unfold itdb_track_remove AddTrackToITunesDb
  simp only [h]

/-- The result of `CopyToStorage` when no path is allocated. -/
theorem CopyToStorage_empty_dest (env : Env) (s : AfcDevice) (source : String) (metadata : Song)
    (remove_original : Bool) (db : Itdb_iTunesDB) (hdb : s.db_ = some db)
    (hdest : allocated_dest env s db metadata = "") :
    CopyToStorage env s source metadata remove_original
      = some (false, { s with db_ := some db,
                              trace := s.trace ++ [Event.AddTrackToITunesDb (fresh_ptr db),
                                                   Event.GetUnusedFilename "",
                                                   Event.itdb_track_remove (fresh_ptr db)] }) := by
  have hr := remove_added db metadata
  unfold allocated_dest at hdest
  unfold CopyToStorage
  rw [hdb]
  simp only [hdest, if_true, hr]
  simp [AddTrackToITunesDb]

/-- C2: on a session with a loaded database, when no unused path is allocated
`CopyToStorage` returns false, the database is exactly the one before the call
(the created track is removed again), the visible track index, the device
files and the local files (the source among them) are unchanged, whatever
`remove_original` is. -/
theorem CopyToStorage_no_path (env : Env) (s : AfcDevice) (source : String) (metadata : Song)
    (remove_original : Bool) (db : Itdb_iTunesDB) (hdb : s.db_ = some db)
    (hdest : allocated_dest env s db metadata = "") :
    ∃ s2, CopyToStorage env s source metadata remove_original = some (false, s2)
      ∧ s2.db_ = some db
      ∧ s2.songs_to_add_ = s.songs_to_add_
      ∧ s2.device_files = s.device_files
      ∧ s2.local_files = s.local_files
      ∧ s2.trace = s.trace ++ [Event.AddTrackToITunesDb (fresh_ptr db),
                               Event.GetUnusedFilename "",
                               Event.itdb_track_remove (fresh_ptr db)] :=
  ⟨_, CopyToStorage_empty_dest env s source metadata remove_original db hdb hdest,
    rfl, rfl, rfl, rfl, rfl⟩

/-- Witness for C2: the session `ready0` with no path available. -/
theorem CopyToStorage_no_path_witness :
    ready0.db_ = some db0 ∧ allocated_dest env_no_path ready0 db0 song1 = ""
    ∧ ∃ s2, CopyToStorage env_no_path ready0 "/home/user/a.mp3" song1 true = some (false, s2)
      ∧ s2.db_ = some db0
      ∧ s2.songs_to_add_ = ready0.songs_to_add_
      ∧ s2.device_files = ready0.device_files
      ∧ s2.local_files = ready0.local_files
      ∧ s2.trace = ready0.trace ++ [Event.AddTrackToITunesDb (fresh_ptr db0),
                                    Event.GetUnusedFilename "",
                                    Event.itdb_track_remove (fresh_ptr db0)] :=
  ⟨rfl, rfl, CopyToStorage_no_path env_no_path ready0 "/home/user/a.mp3" song1 true db0 rfl rfl⟩

/-! ## `CopyToStorage` with an allocated path -/

theorem modify_added (db : Itdb_iTunesDB) (t : Itdb_Track) (f : Itdb_Track → Itdb_Track)
    (ht : t.ptr = fresh_ptr db) :
    modify_track { tracks := db.tracks ++ [t], sysinfo := db.sysinfo } (fresh_ptr db) f
      = { tracks := db.tracks ++ [f t], sysinfo := db.sysinfo } := by
  have h := map_modify_append_last db.tracks t f
    (fun u hu => by rw [ht]; exact Nat.ne_of_lt (ptr_lt_fresh db u hu))
  rw [ht] at h
  unfold modify_track
  simp only [h]

/-- The result of `CopyToStorage` when a path is allocated: always `true`, with
the new track, completed, at the end of the database and of the model. -/
theorem CopyToStorage_allocated (env : Env) (s : AfcDevice) (source : String) (metadata : Song)
    (remove_original : Bool) (db : Itdb_iTunesDB) (hdb : s.db_ = some db)
    (hdest : allocated_dest env s db metadata ≠ "") :
    ∃ s2, CopyToStorage env s source metadata remove_original = some (true, s2)
      ∧ s2.db_ = some
          { tracks := db.tracks ++
              [{ ptr := fresh_ptr db, song := metadata, transferred := true,
                 filetype_marker := dest_marker env (allocated_dest env s db metadata),
                 ipod_path :=
                   some (env.itdb_filename_fs2ipod (allocated_dest env s db metadata)) }],
            sysinfo := db.sysinfo }
      ∧ s2.songs_to_add_ = s.songs_to_add_ ++
          [{ pfx := "afc://" ++ s.url_host,
             track :=
               { ptr := fresh_ptr db, song := metadata, transferred := true,
                 filetype_marker := dest_marker env (allocated_dest env s db metadata),
                 ipod_path :=
                   some (env.itdb_filename_fs2ipod (allocated_dest env s db metadata)) } }]
      ∧ s2.trace = s.trace ++ copy_events env s source db (allocated_dest env s db metadata)
          ++ (if remove_original then [Event.QFile_remove source] else [])
      ∧ s2.device_files =
          (if env.dest_open_ok (allocated_dest env s db metadata) then
            (allocated_dest env s db metadata,
              if env.dest_open_ok (allocated_dest env s db metadata)
                  && env.dest_write_ok (allocated_dest env s db metadata)
              then (s.local_files.lookup source).getD [] else []) :: s.device_files
           else s.device_files)
      ∧ s2.local_files =
          (if remove_original && env.QFile_remove_ok source
           then s.local_files.filter (fun kv => kv.1 != source) else s.local_files)
      ∧ s2.errors = s.errors ∧ s2.url_host = s.url_host := by
  unfold allocated_dest at hdest ⊢
  unfold CopyToStorage
  rw [hdb]
  simp only [hdest, if_false]
  have e0 : (AddTrackToITunesDb db metadata).1.ptr = fresh_ptr db := rfl
  have e1 : (AddTrackToITunesDb db metadata).2
      = { tracks := db.tracks ++ [(AddTrackToITunesDb db metadata).1], sysinfo := db.sysinfo } :=
    rfl
  cases remove_original
  · refine ⟨_, rfl, ?_, ?_, ?_, rfl, ?_, rfl, rfl⟩
    · simp only [e0]
      conv_lhs => rw [e1]
      rw [modify_added db _ _ e0, modify_added db _ _ rfl, modify_added db _ _ rfl,
        modify_added db _ _ rfl]
      rfl
    · rfl
    · simp [copy_events, dest_marker, AddTrackToITunesDb]
    · simp
  · refine ⟨_, rfl, ?_, ?_, ?_, rfl, ?_, rfl, rfl⟩
    · simp only [e0]
      conv_lhs => rw [e1]
      rw [modify_added db _ _ e0, modify_added db _ _ rfl, modify_added db _ _ rfl,
        modify_added db _ _ rfl]
      rfl
    · rfl
    · simp [copy_events, dest_marker, AddTrackToITunesDb]
    · simp

/-- C3: for every `CopyToStorage` call that returns true, the track created by
the call (a new pointer, at the end of the database) has `transferred` set,
carries the converted form `itdb_filename_fs2ipod dest` of the allocated path
and the marker computed from that path, and is registered in the model under
"afc://" followed by the device identifier; in the call the three writes come
before the registration. -/
theorem CopyToStorage_true_track (env : Env) (s s2 : AfcDevice) (source : String)
    (metadata : Song) (remove_original : Bool)
    (h : CopyToStorage env s source metadata remove_original = some (true, s2)) :
    ∃ db db2 track dest,
      s.db_ = some db ∧ dest = allocated_dest env s db metadata ∧ dest ≠ ""
      ∧ s2.db_ = some db2 ∧ db2.tracks = db.tracks ++ [track] ∧ track ∈ db2.tracks
      ∧ (∀ u ∈ db.tracks, u.ptr ≠ track.ptr) ∧ track.song = metadata
      ∧ track.transferred = true
      ∧ track.ipod_path = some (env.itdb_filename_fs2ipod dest)
      ∧ track.filetype_marker = dest_marker env dest
      ∧ s2.songs_to_add_ = s.songs_to_add_ ++ [{ pfx := "afc://" ++ s.url_host, track := track }]
      ∧ { pfx := "afc://" ++ s.url_host, track := track } ∈ s2.songs_to_add_
      ∧ ∃ pre post,
          s2.trace = s.trace ++ pre ++
            [Event.set_transferred track.ptr,
             Event.set_filetype_marker track.ptr track.filetype_marker,
             Event.set_ipod_path track.ptr dest,
             Event.itdb_filename_fs2ipod track.ptr (env.itdb_filename_fs2ipod dest),
             Event.AddTrackToModel track.ptr ("afc://" ++ s.url_host)] ++ post
          ∧ Event.AddTrackToModel track.ptr ("afc://" ++ s.url_host) ∉ pre := by
  cases hdb : s.db_ with
  | none => simp [CopyToStorage, hdb] at h
  | some db =>
    by_cases hdest : allocated_dest env s db metadata = ""
    · rw [CopyToStorage_empty_dest env s source metadata remove_original db hdb hdest] at h
      simp at h
    · obtain ⟨s3, h3, hdb3, hsongs, htrace, _⟩ :=
        CopyToStorage_allocated env s source metadata remove_original db hdb hdest
      rw [h3] at h
      have hs : s3 = s2 := by
        have := Option.some.inj h
        exact (Prod.mk.inj this).2
      subst hs
      refine ⟨db, _, _, _, rfl, rfl, hdest, hdb3, rfl, by simp, ?_, rfl, rfl, rfl, rfl, hsongs,
        by rw [hsongs]; simp, ?_⟩
      · intro u hu
        exact Nat.ne_of_lt (ptr_lt_fresh db u hu)
      · refine ⟨[Event.AddTrackToITunesDb (fresh_ptr db),
            Event.GetUnusedFilename (allocated_dest env s db metadata),
            Event.source_open source (s.local_files.lookup source).isSome,
            Event.dest_open (allocated_dest env s db metadata)
              (env.dest_open_ok (allocated_dest env s db metadata)),
            Event.dest_write (allocated_dest env s db metadata)
              (env.dest_open_ok (allocated_dest env s db metadata)
                && env.dest_write_ok (allocated_dest env s db metadata))],
          (if remove_original then [Event.QFile_remove source] else []), ?_, by simp⟩
        rw [htrace]
        simp [copy_events]

/-- The session `ready0` after `song1` was copied with `env_ok`. -/
theorem CopyToStorage_ready0 :
    CopyToStorage env_ok ready0 "/home/user/a.mp3" song1 false = some (true, copied0) := by
  decide

/-- Witness for C3: the session `ready0` after a successful copy. -/
theorem CopyToStorage_true_track_witness :
    CopyToStorage env_ok ready0 "/home/user/a.mp3" song1 false = some (true, copied0)
    ∧ ∃ db db2 track dest,
      ready0.db_ = some db ∧ dest = allocated_dest env_ok ready0 db song1 ∧ dest ≠ ""
      ∧ copied0.db_ = some db2 ∧ db2.tracks = db.tracks ++ [track] ∧ track ∈ db2.tracks
      ∧ (∀ u ∈ db.tracks, u.ptr ≠ track.ptr) ∧ track.song = song1
      ∧ track.transferred = true
      ∧ track.ipod_path = some (env_ok.itdb_filename_fs2ipod dest)
      ∧ track.filetype_marker = dest_marker env_ok dest
      ∧ copied0.songs_to_add_
          = ready0.songs_to_add_ ++ [{ pfx := "afc://" ++ ready0.url_host, track := track }]
      ∧ { pfx := "afc://" ++ ready0.url_host, track := track } ∈ copied0.songs_to_add_
      ∧ ∃ pre post,
          copied0.trace = ready0.trace ++ pre ++
            [Event.set_transferred track.ptr,
             Event.set_filetype_marker track.ptr track.filetype_marker,
             Event.set_ipod_path track.ptr dest,
             Event.itdb_filename_fs2ipod track.ptr (env_ok.itdb_filename_fs2ipod dest),
             Event.AddTrackToModel track.ptr ("afc://" ++ ready0.url_host)] ++ post
          ∧ Event.AddTrackToModel track.ptr ("afc://" ++ ready0.url_host) ∉ pre :=
  ⟨CopyToStorage_ready0,
    CopyToStorage_true_track env_ok ready0 copied0 "/home/user/a.mp3" song1 false
      CopyToStorage_ready0⟩

/-- C4, the code at a failing input: the source file does not exist and the
device file can not be opened, yet `CopyToStorage` returns true, nothing is
written to the device, and the new track is in the database and in the model
with `transferred` set. -/
theorem CopyToStorage_io_failure_returns_true :
    ready0.local_files.lookup "/home/user/missing.mp3" = none
    ∧ env_io_fail.dest_open_ok (allocated_dest env_io_fail ready0 db0 song1) = false
    ∧ (CopyToStorage env_io_fail ready0 "/home/user/missing.mp3" song1 false).map
        (fun r => (r.1, r.2.device_files,
                   r.2.db_.map (fun d => d.tracks.map (fun t => (t.ptr, t.transferred))),
                   r.2.songs_to_add_.map (fun e => (e.track.ptr, e.track.transferred))))
      = some (true, [], some [(7, true), (8, true)], [(8, true)]) := by
  refine ⟨by decide, by decide, rfl⟩

/-! ## The device-lock token -/

theorem FirewireGuid_set_some (db : Itdb_iTunesDB) (v : String) :
    FirewireGuid (itdb_device_set_sysinfo db "FirewireGuid" (some v)) = some v := by
  simp [FirewireGuid, itdb_device_set_sysinfo, List.lookup_cons]

theorem FinaliseDatabase_some (env : Env) (s : AfcDevice) (db : Itdb_iTunesDB)
    (hdb : s.db_ = some db) :
    ∃ s2, FinaliseDatabase env s = some s2
      ∧ s2.db_ = some (itdb_device_set_sysinfo db "FirewireGuid" (some s.url_host))
      ∧ s2.trace = s.trace ++ [Event.set_sysinfo "FirewireGuid" (some s.url_host),
            Event.itdb_start_sync,
            Event.CopyToDevice (env.CopyToDevice s.local_path_ s.device_files).1]
          ++ (if (env.CopyToDevice s.local_path_ s.device_files).1 then [Event.itdb_stop_sync]
              else [Event.itdb_stop_sync, Event.emit_Error copyToDeviceError])
      ∧ s2.errors = s.errors
          ++ (if (env.CopyToDevice s.local_path_ s.device_files).1 then []
              else [copyToDeviceError]) := by
  unfold FinaliseDatabase
  rw [hdb]
  cases hc : (env.CopyToDevice s.local_path_ s.device_files).1
  · simp [hc]
  · simp [hc]

/-- C5 (as amended): on a session with a loaded database, when the copy of the
database onto the device fails, `FinaliseDatabase` reports the copy-out error,
once, and the lock token "FirewireGuid" holds the device identifier when the
operation returns. -/
theorem FinaliseDatabase_failure_token_set (env : Env) (s : AfcDevice) (db : Itdb_iTunesDB)
    (hdb : s.db_ = some db)
    (hfail : (env.CopyToDevice s.local_path_ s.device_files).1 = false) :
    ∃ s2 db2, FinaliseDatabase env s = some s2
      ∧ s2.errors = s.errors ++ [copyToDeviceError]
      ∧ s2.db_ = some db2
      ∧ FirewireGuid db2 = some s.url_host
      ∧ db2.tracks = db.tracks := by
  obtain ⟨s2, h2, hdb2, _, herr⟩ := FinaliseDatabase_some env s db hdb
  refine ⟨s2, _, h2, ?_, hdb2, FirewireGuid_set_some db s.url_host, ?_⟩
  · rw [herr, hfail]; simp
  · simp [itdb_device_set_sysinfo]

/-- Witness for C5: the session `ready0` with a failing copy-out. -/
theorem FinaliseDatabase_failure_token_set_witness :
    ready0.db_ = some db0
    ∧ (env_io_fail.CopyToDevice ready0.local_path_ ready0.device_files).1 = false
    ∧ ∃ s2 db2, FinaliseDatabase env_io_fail ready0 = some s2
      ∧ s2.errors = ready0.errors ++ [copyToDeviceError]
      ∧ s2.db_ = some db2
      ∧ FirewireGuid db2 = some ready0.url_host
      ∧ db2.tracks = db0.tracks :=
  ⟨rfl, rfl, FinaliseDatabase_failure_token_set env_io_fail ready0 db0 rfl rfl⟩

/-- C5 fails as stated: on `ready0` the copy-out fails and the lock token is set
to the device identifier, not cleared, when `FinaliseDatabase` returns; the
same holds when it runs from `FinishCopy`, after the clear. -/
theorem FinaliseDatabase_failure_token_not_cleared :
    (env_io_fail.CopyToDevice ready0.local_path_ ready0.device_files).1 = false
    ∧ (FinaliseDatabase env_io_fail ready0).map (fun s => (s.errors, s.db_.map FirewireGuid))
        = some ([copyToDeviceError], some (some "ipod-1234"))
    ∧ (FinaliseDatabase env_io_fail ready0).map (fun s => s.db_.map FirewireGuid)
        ≠ some (some none)
    ∧ (FinishCopy env_io_fail ready0).map (fun s => s.db_.map FirewireGuid)
        = some (some (some "ipod-1234")) := by
  refine ⟨rfl, rfl, by decide, rfl⟩

end Clementine
